import Mathlib

/- Shallow embedding of the session pattern generator, merge-and-save and
notification logic of an academic scheduling application (core/scheduler.py,
screens/schedule.py and the variant screens/schedule - Copy (3).py).

Calendar dates are modelled as proleptic-Gregorian ordinal day numbers (the
value returned by the Python method date.toordinal): day 1 is 0001-01-01, a Monday, and
adding one advances the calendar by one day.  the Python method date.weekday (Mon = 0)
is then (ordinal + 6) % 7, date comparison is ordinal comparison, and the ISO
date strings SQL compares order exactly like the ordinals. -/

namespace Sched

/-- Gregorian leap-year test (what the Python date arithmetic uses). -/
def isLeap (y : Nat) : Bool := (y % 4 == 0 && y % 100 != 0) || (y % 400 == 0)

/-- Number of days in month m (1..12) of year y. -/
def daysInMonth (y m : Nat) : Nat :=
  if m = 2 then (if isLeap y then 29 else 28)
  else if m = 4 ∨ m = 6 ∨ m = 9 ∨ m = 11 then 30
  else 31

/-- Days of year y that lie before the first of month m. -/
def daysBeforeMonth (y m : Nat) : Nat :=
  ((List.range (m - 1)).map (fun i => daysInMonth y (i + 1))).sum

/-- Proleptic-Gregorian ordinal of the calendar date y-m-d, as the Python method
date.toordinal: 0001-01-01 is day 1. -/
def toOrdinal (y m d : Nat) : Nat :=
  365 * (y - 1) + (y - 1) / 4 - (y - 1) / 100 + (y - 1) / 400 + daysBeforeMonth y m + d

/-- The Python method date.weekday (Mon = 0 .. Sun = 6) of an ordinal day number. -/
def pyWeekday (d : Nat) : Nat := (d + 6) % 7

/-- The inclusive run of days start..e in ascending order: the days the
Python loop `while d <= end: ...; d += one_day` visits. -/
def dayRange (start e : Nat) : List Nat :=
  (List.range (e + 1 - start)).map (fun i => start + i)

/-- core/scheduler.py generate_simple_pattern: the dates of start..e whose
weekday index lies in wd, skipping holidays; empty when start > e. -/
def generate_simple_pattern (start e : Nat) (wd holidays : Finset Nat) : List Nat :=
  if start > e then []
  else (dayRange start e).filter (fun d => decide (pyWeekday d ∈ wd ∧ d ∉ holidays))

/-- core/scheduler.py generate_alternating_pattern: week 0 relative to start
uses weekA, week 1 weekB, alternating; holidays skipped; empty when
start > e. -/
def generate_alternating_pattern (start e : Nat) (weekA weekB holidays : Finset Nat) :
    List Nat :=
  if start > e then []
  else (dayRange start e).filter (fun d =>
    decide (pyWeekday d ∈ (if (d - start) / 7 % 2 = 0 then weekA else weekB) ∧
      d ∉ holidays))

/-- ASCII lower-casing of one character, Python str.lower / SQL LOWER on the
ASCII slot values this application stores. -/
def lowerChar (c : Char) : Char := Char.toLower c

/-- Lower-casing of a string, character by character. -/
def pyLower (s : String) : String := String.mk (s.data.map lowerChar)

/-- One row of the subject_sessions table (and, equally, one element of the
row batch the schedule screens hand to their merge helpers).  Optional ids
are Options; the SQL IFNULL(x,-1) comparisons coincide with Option equality. -/
structure SessionRow where
  subject_id : Nat
  topic_id : Option Nat := none
  session_date : Nat
  slot : String
  kind : String := ""
  lectures : Nat := 0
  studios : Nat := 0
  lecture_notes : String := ""
  studio_notes : String := ""
  assignment_id : Option Nat := none
  due_date : Option Nat := none
  completed : String := ""
  degree_id : Nat := 0
  batch_year : Nat := 0
  semester : Nat := 0
  branch_id : Option Nat := none
  branch_head_faculty_id : Option Nat := none
deriving DecidableEq, Repr

/-- One row of subject_criteria as the schedule screens read it: the target
lecture/studio counts, the designated subject-in-charge and display fields. -/
structure Criteria where
  lectures : Nat := 0
  studios : Nat := 0
  subject_in_charge_id : Option Nat := none
  code : String := ""
  name : String := ""
deriving DecidableEq, Repr

/-- The tables of the single relational database the schedule screens touch.
criteria is keyed by subject_criteria.id (a primary key), facultyMap lists
subject_faculty_map rows (subject_id, faculty_id), faculty maps a faculty id
to its name, and principalId is the resolved result of the
faculty_roles-role-is-principal lookup. -/
structure DB where
  sessions : List SessionRow
  holidays : Finset Nat
  criteria : List (Nat × Criteria)
  facultyMap : List (Nat × Nat)
  faculty : List (Nat × String)
  principalId : Option Nat := none
deriving DecidableEq

/-- Lookup of the (unique) subject_criteria row with the given id. -/
def lookupCriteria (db : DB) (sid : Nat) : Option Criteria :=
  (db.criteria.find? (fun p => p.1 == sid)).map (fun p => p.2)

/-- screens/schedule.py _holidays_between: the holiday dates of the inclusive
window sd..ed. -/
def holidaysBetween (db : DB) (sd ed : Nat) : Finset Nat :=
  db.holidays.filter (fun d => sd ≤ d ∧ d ≤ ed)

/-- screens/schedule.py _subject_targets: (required lectures, required
studios) from subject_criteria, (0, 0) when the row is missing. -/
def subjectTargets (db : DB) (sid : Nat) : Nat × Nat :=
  match lookupCriteria db sid with
  | none => (0, 0)
  | some c => (c.lectures, c.studios)

/-- The deletion predicate of screens/schedule.py _merge_and_save: a stored
session s collides with batch row r when it agrees on subject, topic, the
stamped batch/semester/branch context and the date, and the slots agree
case-insensitively (SQL LOWER on both sides). -/
def matchesDel (batch sem : Nat) (bid : Option Nat) (r s : SessionRow) : Bool :=
  decide (s.subject_id = r.subject_id ∧ s.topic_id = r.topic_id ∧
    s.batch_year = batch ∧ s.semester = sem ∧ s.branch_id = bid ∧
    s.session_date = r.session_date ∧ pyLower s.slot = pyLower r.slot)

/-- Normalisation step of screens/schedule.py _merge_and_save: drop batch
rows whose date is a holiday of the sd..ed window, stamp batch_year,
semester and branch_id onto the remaining rows. -/
def normRows (db : DB) (sd ed : Nat) (rows : List SessionRow)
    (batch sem : Nat) (bid : Option Nat) : List SessionRow :=
  rows.filterMap (fun r =>
    if r.session_date ∈ holidaysBetween db sd ed then none
    else some { r with batch_year := batch, semester := sem, branch_id := bid })

/-- screens/schedule.py _save_sessions_bulk stores slot and kind
lower-cased and every other field as given. -/
def storeRow (r : SessionRow) : SessionRow :=
  { r with slot := pyLower r.slot, kind := pyLower r.kind }

/-- The row filter of the shortfall re-read query of _merge_and_save: same
subject, batch, semester and branch, session_date within sd..ed. -/
def inWindow (sid batch sem : Nat) (bid : Option Nat) (sd ed : Nat) (s : SessionRow) : Bool :=
  decide (s.subject_id = sid ∧ s.batch_year = batch ∧ s.semester = sem ∧
    s.branch_id = bid ∧ sd ≤ s.session_date ∧ s.session_date ≤ ed)

/-- SUM(COALESCE(lectures,0)) of the shortfall re-read query. -/
def sumLectures (sess : List SessionRow) (sid batch sem : Nat) (bid : Option Nat)
    (sd ed : Nat) : Nat :=
  ((sess.filter (inWindow sid batch sem bid sd ed)).map (fun s => s.lectures)).sum

/-- SUM(COALESCE(studios,0)) of the shortfall re-read query. -/
def sumStudios (sess : List SessionRow) (sid batch sem : Nat) (bid : Option Nat)
    (sd ed : Nat) : Nat :=
  ((sess.filter (inWindow sid batch sem bid sd ed)).map (fun s => s.studios)).sum

/-- A shortfall message as screens/schedule.py _merge_and_save emits it:
the subject, the action label and the two shortfall amounts it reports. -/
structure Notif where
  subject_id : Nat
  label : String
  needLect : Nat
  needStud : Nat
deriving DecidableEq, Repr

/-- What one invocation of screens/schedule.py _merge_and_save leaves
behind: the database, the shortfall messages emitted, and whether the
invocation raised IndexError at the `ins[0]` recipients lookup before the
message could be emitted. -/
structure MergeResult where
  db : DB
  notifs : List Notif
  crashed : Bool
deriving DecidableEq

/-- The delete-collisions-then-bulk-insert core of _merge_and_save: one
DELETE per normalised batch row, then the bulk INSERT of the batch. -/
def mergedSessions (db : DB) (sd ed : Nat) (rows : List SessionRow)
    (batch sem : Nat) (bid : Option Nat) : List SessionRow :=
  let ins := normRows db sd ed rows batch sem bid
  (ins.foldl (fun acc r => acc.filter (fun s => !(matchesDel batch sem bid r s)))
    db.sessions) ++ ins.map storeRow

/-- The shortfall tail of _merge_and_save, run against the saved state
sess: the messages it emits, and true in the second component when it
raises IndexError (ins is empty but a shortfall was found, so the
recipients lookup reads ins[0]). -/
def shortfallCheck (db : DB) (sid : Nat) (sd ed : Nat) (ins sess : List SessionRow)
    (batch sem : Nat) (bid : Option Nat) (label : String) : List Notif × Bool :=
  let t := subjectTargets db sid
  if t.1 ≠ 0 ∨ t.2 ≠ 0 then
    let curL := sumLectures sess sid batch sem bid sd ed
    let curS := sumStudios sess sid batch sem bid sd ed
    let needL := t.1 - curL
    let needS := t.2 - curS
    if needL ≠ 0 ∨ needS ≠ 0 then
      match ins with
      | [] => ([], true)
      | _ :: _ => ([⟨sid, label, needL, needS⟩], false)
    else ([], false)
  else ([], false)

/-- screens/schedule.py _merge_and_save: an empty batch returns at once;
otherwise normalise and stamp the batch, delete colliding stored rows,
bulk-insert, then run the shortfall check against the re-read state. -/
def mergeAndSave (db : DB) (sid : Nat) (sd ed : Nat) (rows : List SessionRow)
    (batch sem : Nat) (bid : Option Nat) (label : String) : MergeResult :=
  if rows.isEmpty then ⟨db, [], false⟩
  else
    let sess := mergedSessions db sd ed rows batch sem bid
    let nb := shortfallCheck db sid sd ed (normRows db sd ed rows batch sem bid)
      sess batch sem bid label
    ⟨{ db with sessions := sess }, nb.1, nb.2⟩

/-- screens/schedule.py render._generate_simple: the rows the Generate
button builds for the simple pattern — one row per date of the window
(clipped to the first weeks*7 days) whose weekday is picked and which is
not a holiday. -/
def generateSimpleRows (db : DB) (sid : Nat) (topic : Option Nat) (degree : Nat)
    (sd ed : Nat) (weeks : Nat) (picks : Finset Nat) (slot kind : String) :
    List SessionRow :=
  (dayRange sd (min ed (sd + (weeks * 7 - 1)))).filterMap (fun d =>
    if pyWeekday d ∈ picks ∧ d ∉ holidaysBetween db sd ed then
      some { subject_id := sid, topic_id := topic, session_date := d, slot := slot,
             kind := kind,
             lectures := if kind = "lecture" ∨ kind = "both" then 1 else 0,
             studios := if kind = "studio" ∨ kind = "both" then 1 else 0,
             degree_id := degree }
    else none)

/-- The subject_sessions rows for the subject within sd..ed as the
Copy (3) screen function _sessions_for reads them (no batch/semester/branch
filter). -/
def sessionsFor3 (sess : List SessionRow) (sid : Nat) (sd ed : Nat) : List SessionRow :=
  sess.filter (fun s => decide (s.subject_id = sid ∧ sd ≤ s.session_date ∧
    s.session_date ≤ ed))

/-- _faculty_ids_for_subject of the Copy (3) screen: the subject-in-charge
from subject_criteria plus all distinct mapped faculty of the subject,
deduplicated and sorted. -/
def facultyIds3 (db : DB) (sid : Nat) : List Nat :=
  let sic := match (lookupCriteria db sid).bind (fun c => c.subject_in_charge_id) with
    | some f => [f]
    | none => []
  let mapped := (db.facultyMap.filter (fun m => m.1 == sid)).map (fun m => m.2)
  ((sic ++ mapped).dedup).insertionSort (· ≤ ·)

/-- One result row of the clash query of _conflicts_in_ay. -/
structure Conflict where
  subject_id : Nat
  day : Nat
  slot : String
  faculty_id : Nat
  faculty_name : String
deriving DecidableEq, Repr

/-- The faculty-table join on a faculty id. -/
def lookupFaculty (db : DB) (fid : Nat) : Option String :=
  (db.faculty.find? (fun p => p.1 == fid)).map (fun p => p.2)

/-- The per-session WHERE condition of both branches of the clash query of
_conflicts_in_ay: same date, same slot case-insensitively, a different
subject, and a date inside the June 1 .. May 31 academic-year window. -/
def clashHit (ay_start d : Nat) (slot : String) (sid : Nat) (ss : SessionRow) : Bool :=
  decide (ss.session_date = d ∧ pyLower ss.slot = pyLower slot ∧
    ss.subject_id ≠ sid ∧ toOrdinal ay_start 6 1 ≤ ss.session_date ∧
    ss.session_date ≤ toOrdinal (ay_start + 1) 5 31)

/-- _conflicts_in_ay of the Copy (3) screen: sessions of other subjects on
the same date and case-insensitive slot, within the June 1 .. May 31
academic-year window, joined to a faculty of the given id list either
through subject_faculty_map or through the designated
subject-in-charge; the UNION of the two paths is deduplicated. -/
def conflictsInAy (db : DB) (faculty_ids : List Nat) (ay_start : Nat)
    (d : Nat) (slot : String) (sid : Nat) : List Conflict :=
  if faculty_ids.isEmpty then []
  else
    let hit := clashHit ay_start d slot sid
    let path1 := db.sessions.flatMap (fun ss =>
      if hit ss then
        (db.facultyMap.filter (fun m =>
            m.1 == ss.subject_id && faculty_ids.contains m.2)).filterMap
          (fun m => (lookupFaculty db m.2).map
            (fun nm => Conflict.mk ss.subject_id ss.session_date ss.slot m.2 nm))
      else [])
    let path2 := db.sessions.flatMap (fun ss =>
      if hit ss then
        match (lookupCriteria db ss.subject_id).bind (fun c => c.subject_in_charge_id) with
        | some f =>
          if faculty_ids.contains f then
            match lookupFaculty db f with
            | some nm => [Conflict.mk ss.subject_id ss.session_date ss.slot f nm]
            | none => []
          else []
        | none => []
      else [])
    (path1 ++ path2).dedup

/-- _stamp_defaults of the Copy (3) screen: batch and semester always,
branch and branch head only when the call supplies one. -/
def stampRow3 (batch sem : Nat) (bid bhid : Option Nat) (r : SessionRow) : SessionRow :=
  { r with
    batch_year := batch
    semester := sem
    branch_id := (match bid with | some b => some b | none => r.branch_id)
    branch_head_faculty_id :=
      (match bhid with | some b => some b | none => r.branch_head_faculty_id) }

/-- The deletion predicate of the Copy (3) _merge_and_save: the subject of
the call (not of the row), the date, and the slot case-insensitively. -/
def matchesDel3 (sid : Nat) (r s : SessionRow) : Bool :=
  decide (s.subject_id = sid ∧ s.session_date = r.session_date ∧
    pyLower s.slot = pyLower r.slot)

/-- A shortfall message of the Copy (3) _merge_and_save, with its
recipient list. -/
structure Notif3 where
  recipients : List Nat
  subject_id : Nat
  label : String
  needLect : Nat
  needStud : Nat
deriving DecidableEq, Repr

/-- A clash message of the Copy (3) _merge_and_save: date, slot, conflict
count and academic year, with its recipient list. -/
structure ClashNotif where
  recipients : List Nat
  subject_id : Nat
  label : String
  day : Nat
  slot : String
  clashCount : Nat
  ayStart : Nat
deriving DecidableEq, Repr

/-- The recipient clean-up `sorted(set(x for x in recips if int(x)))` of
the Copy (3) screen. -/
def normRecips (l : List Nat) : List Nat :=
  ((l.filter (fun x => x != 0)).dedup).insertionSort (· ≤ ·)

/-- Clash recipients of the Copy (3) screen: subject-in-charge, principal
and branch head, cleaned up. -/
def clashRecips (db : DB) (sid : Nat) (bhid : Option Nat) : List Nat :=
  let sic := match (lookupCriteria db sid).bind (fun c => c.subject_in_charge_id) with
    | some f => [f]
    | none => []
  let pr := match db.principalId with | some p => [p] | none => []
  let bh := match bhid with | some b => [b] | none => []
  normRecips (sic ++ pr ++ bh)

/-- Shortfall recipients of the Copy (3) screen: every faculty of the
subject, the principal and the branch head, cleaned up. -/
def shortfallRecips3 (db : DB) (sid : Nat) (bhid : Option Nat) : List Nat :=
  let pr := match db.principalId with | some p => [p] | none => []
  let bh := match bhid with | some b => [b] | none => []
  normRecips (facultyIds3 db sid ++ pr ++ bh)

/-- What one invocation of the Copy (3) _merge_and_save leaves behind: the
database, the shortfall messages, the clash messages, and the synchronous
st.warning texts it surfaced to the caller. -/
structure MergeResult3 where
  db : DB
  shortfalls : List Notif3
  clashes : List ClashNotif
  warnings : List ClashNotif
deriving DecidableEq

/-- Academic-year start chosen by the Copy (3) _merge_and_save: the year of
the program derived back from the absolute semester, added to the batch. -/
def ayForSem (batch sem : Nat) : Nat := batch + ((sem + 1) / 2) - 1

/-- The Copy (3) screen function _merge_and_save: an empty batch returns at once;
otherwise stamp the batch, delete colliding stored rows by (subject, date,
slot), bulk-insert the batch unchanged, run the shortfall check against
the re-read state and then the per-row faculty clash check. -/
def mergeAndSave3 (db : DB) (sid : Nat) (sd ed : Nat) (new_rows : List SessionRow)
    (batch sem : Nat) (bid bhid : Option Nat) (label : String) : MergeResult3 :=
  if new_rows.isEmpty then ⟨db, [], [], []⟩
  else
    let stamped := new_rows.map (stampRow3 batch sem bid bhid)
    let afterDel := stamped.foldl
      (fun acc r => acc.filter (fun s => !(matchesDel3 sid r s))) db.sessions
    let sess := afterDel ++ stamped
    let db' : DB := { db with sessions := sess }
    let sf : List Notif3 :=
      match lookupCriteria db sid with
      | none => []
      | some c =>
        let haveL := ((sessionsFor3 sess sid sd ed).map (fun s => s.lectures)).sum
        let haveS := ((sessionsFor3 sess sid sd ed).map (fun s => s.studios)).sum
        let missL := c.lectures - haveL
        let missS := c.studios - haveS
        if missL ≠ 0 ∨ missS ≠ 0 then
          [⟨shortfallRecips3 db sid bhid, sid, label, missL, missS⟩]
        else []
    let facIds := facultyIds3 db sid
    let ay := ayForSem batch sem
    let cl : List ClashNotif := stamped.filterMap (fun r =>
      let cfs := conflictsInAy db' facIds ay r.session_date (pyLower r.slot) sid
      if cfs.isEmpty then none
      else some ⟨clashRecips db sid bhid, sid, label, r.session_date, pyLower r.slot,
        cfs.length, ay⟩)
    ⟨db', sf, cl, cl⟩

/-- The seven columns under which the merge of screens/schedule.py deletes:
subject, topic, batch year, semester, branch, date, lower-cased slot. -/
structure Key7 where
  subject_id : Nat
  topic_id : Option Nat
  batch_year : Nat
  semester : Nat
  branch_id : Option Nat
  session_date : Nat
  slot : String
deriving DecidableEq, Repr

/-- The four columns the invariant of the spec names: subject, topic, date,
lower-cased slot. -/
structure Key4 where
  subject_id : Nat
  topic_id : Option Nat
  session_date : Nat
  slot : String
deriving DecidableEq, Repr

/-- The seven-column identity of a stored session row. -/
def key7 (s : SessionRow) : Key7 :=
  ⟨s.subject_id, s.topic_id, s.batch_year, s.semester, s.branch_id,
    s.session_date, pyLower s.slot⟩

/-- The four-column identity of a stored session row. -/
def key4 (s : SessionRow) : Key4 :=
  ⟨s.subject_id, s.topic_id, s.session_date, pyLower s.slot⟩

/-- One session-writing operation of screens/schedule.py: pattern
generation, tail-week addition, single-day addition, editor save and
bulk import all funnel their row batch through _merge_and_save with
these arguments. -/
structure MergeOp where
  sid : Nat
  sd : Nat
  ed : Nat
  rows : List SessionRow
  batch : Nat
  sem : Nat
  bid : Option Nat
  label : String
deriving Repr

/-- Run a sequence of merge operations against the database. -/
def applyOps (db : DB) (ops : List MergeOp) : DB :=
  ops.foldl
    (fun s o => (mergeAndSave s o.sid o.sd o.ed o.rows o.batch o.sem o.bid o.label).db) db

/-- Referential integrity of the faculty joins the clash query performs:
every faculty id a subject_faculty_map row or a subject-in-charge column
references has a faculty row. -/
def FacultyWF (db : DB) : Prop :=
  (∀ p ∈ db.facultyMap, (lookupFaculty db p.2).isSome = true)
  ∧ (∀ q ∈ db.criteria, ∀ f, q.2.subject_in_charge_id = some f →
      (lookupFaculty db f).isSome = true)

/- Concrete instances used to evaluate the theorems below on closed inputs.
Ordinal 738886 is 2024-01-01 (a Monday), 739442 is 2025-07-10 (a Thursday),
739403 is 2025-06-01 and 739767 is 2026-05-31. -/

/-- A freshly generated batch row for subject 1 on 2024-01-01 morning. -/
def cxRowNew : SessionRow :=
  { subject_id := 1, session_date := 738886, slot := "morning", kind := "lecture",
    lectures := 1, degree_id := 1 }

/-- A stored session for subject 1 on 2024-01-01 morning of batch 2024. -/
def cxRowOld : SessionRow :=
  { subject_id := 1, session_date := 738886, slot := "morning", kind := "lecture",
    lectures := 1, batch_year := 2024, semester := 1 }

/-- An otherwise empty database holding only cxRowOld. -/
def cxDB2 : DB :=
  { sessions := [cxRowOld], holidays := ∅, criteria := [], facultyMap := [],
    faculty := [] }

/-- The empty database. -/
def cxDB0 : DB :=
  { sessions := [], holidays := ∅, criteria := [], facultyMap := [], faculty := [] }

/-- A pattern generation of the day of cxRowNew for batch 2024. -/
def cxOp1 : MergeOp :=
  { sid := 1, sd := 738886, ed := 738892, rows := [cxRowNew], batch := 2024,
    sem := 1, bid := none, label := "Pattern generate" }

/-- The same generation run for batch 2025. -/
def cxOp2 : MergeOp :=
  { sid := 1, sd := 738886, ed := 738892, rows := [cxRowNew], batch := 2025,
    sem := 1, bid := none, label := "Pattern generate" }

/-- A database holding a stored Tuesday session whose date was later added
to the holiday table. -/
def cxDB5 : DB :=
  { sessions := [{ subject_id := 1, session_date := 738887, slot := "morning",
                   kind := "lecture", lectures := 1, batch_year := 2024,
                   semester := 1 }],
    holidays := {738887}, criteria := [], facultyMap := [], faculty := [] }

/-- A database with a criteria row demanding 10 lectures for subject 1 and
no sessions. -/
def cxDB6 : DB :=
  { sessions := [], holidays := ∅,
    criteria := [(1, { lectures := 10, studios := 0 })], facultyMap := [],
    faculty := [] }

/-- A database where faculty 1 is the subject-in-charge of subject 1, is
mapped to subject 2, and subject 2 already holds a session on 2025-07-10
morning. -/
def cxDB7 : DB :=
  { sessions := [{ subject_id := 2, session_date := 739442, slot := "morning",
                   kind := "lecture", lectures := 1 }],
    holidays := ∅, criteria := [(1, { subject_in_charge_id := some 1 })],
    facultyMap := [(2, 1)], faculty := [(1, "F")] }

/-- Like cxDB7 but with subject 2 holding sessions on two consecutive
mornings, 2025-07-10 and 2025-07-11. -/
def cxDB8 : DB :=
  { sessions := [{ subject_id := 2, session_date := 739442, slot := "morning",
                   kind := "lecture", lectures := 1 },
                 { subject_id := 2, session_date := 739443, slot := "morning",
                   kind := "lecture", lectures := 1 }],
    holidays := ∅, criteria := [(1, { subject_in_charge_id := some 1 })],
    facultyMap := [(2, 1)], faculty := [(1, "F"), (2, "G")] }

/-- A generated batch for subject 1 on the same two mornings. -/
def cxRows8 : List SessionRow :=
  [{ subject_id := 1, session_date := 739442, slot := "morning", kind := "lecture",
     lectures := 1 },
   { subject_id := 1, session_date := 739443, slot := "morning", kind := "lecture",
     lectures := 1 }]

end Sched

namespace Sched

theorem mem_dayRange {start e d : Nat} : d ∈ dayRange start e ↔ start ≤ d ∧ d ≤ e := by
  simp only [dayRange, List.mem_map, List.mem_range]
  constructor
  · rintro ⟨i, hi, rfl⟩; omega
  · rintro ⟨h1, h2⟩; exact ⟨d - start, by omega, by omega⟩

theorem sorted_dayRange (start e : Nat) : List.Sorted (· < ·) (dayRange start e) := by
  unfold dayRange
  exact List.Pairwise.map _ (fun a b h => by omega) (List.pairwise_lt_range _)

theorem mem_generate_simple_pattern {start e d : Nat} {W H : Finset Nat} :
    d ∈ generate_simple_pattern start e W H ↔
      (start ≤ d ∧ d ≤ e ∧ pyWeekday d ∈ W ∧ d ∉ H) := by
  unfold generate_simple_pattern
  by_cases h : start > e
  · rw [if_pos h]
    simp only [List.not_mem_nil, false_iff]
    rintro ⟨h1, h2, -⟩; omega
  · rw [if_neg h]
    simp only [List.mem_filter, mem_dayRange, decide_eq_true_eq]
    tauto

theorem sorted_generate_simple_pattern (start e : Nat) (W H : Finset Nat) :
    List.Sorted (· < ·) (generate_simple_pattern start e W H) := by
  unfold generate_simple_pattern
  by_cases h : start > e
  · rw [if_pos h]; exact List.sorted_nil
  · rw [if_neg h]; exact (sorted_dayRange start e).filter _

theorem lowerChar_idem (c : Char) : lowerChar (lowerChar c) = lowerChar c := by
  unfold lowerChar
  unfold Char.toLower
  by_cases h : c.toNat ≥ 65 ∧ c.toNat ≤ 90
  · rw [if_pos h]
    have ht : (Char.ofNat (c.toNat + 32)).toNat = c.toNat + 32 := by
      rw [Char.ofNat, dif_pos (Or.inl (by omega : c.toNat + 32 < 55296))]
      simp only [Char.ofNatAux, Char.toNat, UInt32.toNat]
      rfl
    rw [ht, if_neg (by omega)]
  · rw [if_neg h, if_neg h]

theorem pyLower_idem (s : String) : pyLower (pyLower s) = pyLower s := by
  simp only [pyLower, List.map_map]
  congr 1
  refine List.map_congr_left (fun c _ => ?_)
  exact lowerChar_idem c

theorem foldl_filter_eq {α β : Type} (p : α → β → Bool) (ins : List α) (l : List β) :
    ins.foldl (fun acc r => acc.filter (fun s => !(p r s))) l
      = l.filter (fun s => !(ins.any (fun r => p r s))) := by
  induction ins generalizing l with
  | nil => simp
  | cons r tl ih =>
    simp only [List.foldl_cons]
    rw [ih, List.filter_filter]
    refine List.filter_congr (fun s _ => ?_)
    simp [Bool.and_comm]

theorem mergeAndSave_sessions (db : DB) (sid : Nat) (sd ed : Nat)
    (rows : List SessionRow) (batch sem : Nat) (bid : Option Nat) (label : String) :
    (mergeAndSave db sid sd ed rows batch sem bid label).db.sessions
      = db.sessions.filter (fun s =>
          !((normRows db sd ed rows batch sem bid).any (fun r => matchesDel batch sem bid r s)))
        ++ (normRows db sd ed rows batch sem bid).map storeRow := by
  unfold mergeAndSave
  by_cases h : rows.isEmpty
  · rw [if_pos h]
    rw [List.isEmpty_iff.mp h]
    simp [normRows]
  · rw [if_neg h]
    simp only [mergedSessions]
    rw [foldl_filter_eq]

theorem mergeAndSave_db_eq (db : DB) (sid : Nat) (sd ed : Nat)
    (rows : List SessionRow) (batch sem : Nat) (bid : Option Nat) (label : String) :
    (mergeAndSave db sid sd ed rows batch sem bid label).db
      = { db with sessions := (mergeAndSave db sid sd ed rows batch sem bid label).db.sessions } := by
  unfold mergeAndSave
  by_cases h : rows.isEmpty
  · rw [if_pos h]
  · rw [if_neg h]

theorem mergeAndSave3_sessions (db : DB) (sid : Nat) (sd ed : Nat)
    (new_rows : List SessionRow) (batch sem : Nat) (bid bhid : Option Nat)
    (label : String) :
    (mergeAndSave3 db sid sd ed new_rows batch sem bid bhid label).db.sessions
      = db.sessions.filter (fun s =>
          !((new_rows.map (stampRow3 batch sem bid bhid)).any (fun r => matchesDel3 sid r s)))
        ++ new_rows.map (stampRow3 batch sem bid bhid) := by
  unfold mergeAndSave3
  by_cases h : new_rows.isEmpty
  · rw [if_pos h, List.isEmpty_iff.mp h]
    simp
  · rw [if_neg h]
    dsimp only
    rw [foldl_filter_eq]

theorem mergeAndSave_holidays (db : DB) (sid sd ed : Nat) (rows : List SessionRow)
    (batch sem : Nat) (bid : Option Nat) (label : String) :
    (mergeAndSave db sid sd ed rows batch sem bid label).db.holidays = db.holidays := by
  rw [mergeAndSave_db_eq]

theorem normRows_congr {db1 db2 : DB} (h : db1.holidays = db2.holidays)
    (sd ed : Nat) (rows : List SessionRow) (batch sem : Nat) (bid : Option Nat) :
    normRows db1 sd ed rows batch sem bid = normRows db2 sd ed rows batch sem bid := by
  unfold normRows holidaysBetween
  rw [h]

theorem generateSimpleRows_congr {db1 db2 : DB} (h : db1.holidays = db2.holidays)
    (sid : Nat) (topic : Option Nat) (degree sd ed weeks : Nat) (picks : Finset Nat)
    (slot kind : String) :
    generateSimpleRows db1 sid topic degree sd ed weeks picks slot kind
      = generateSimpleRows db2 sid topic degree sd ed weeks picks slot kind := by
  unfold generateSimpleRows holidaysBetween
  rw [h]

theorem normRows_stamped {db : DB} {sd ed : Nat} {rows : List SessionRow}
    {batch sem : Nat} {bid : Option Nat} {r : SessionRow}
    (h : r ∈ normRows db sd ed rows batch sem bid) :
    r.batch_year = batch ∧ r.semester = sem ∧ r.branch_id = bid ∧
      r.session_date ∉ holidaysBetween db sd ed := by
  simp only [normRows, List.mem_filterMap] at h
  obtain ⟨a, ha, hsome⟩ := h
  by_cases hh : a.session_date ∈ holidaysBetween db sd ed
  · rw [if_pos hh] at hsome
    cases hsome
  · rw [if_neg hh] at hsome
    cases hsome
    exact ⟨rfl, rfl, rfl, hh⟩

theorem matchesDel_storeRow_self (batch sem : Nat) (bid : Option Nat) (r : SessionRow)
    (h1 : r.batch_year = batch) (h2 : r.semester = sem) (h3 : r.branch_id = bid) :
    matchesDel batch sem bid r (storeRow r) = true := by
  unfold matchesDel storeRow
  rw [decide_eq_true_eq]
  exact ⟨rfl, rfl, h1, h2, h3, rfl, pyLower_idem r.slot⟩

theorem mergeAndSave_twice (db : DB) (sid sd ed : Nat) (rows : List SessionRow)
    (batch sem : Nat) (bid : Option Nat) (label : String) :
    (mergeAndSave (mergeAndSave db sid sd ed rows batch sem bid label).db
        sid sd ed rows batch sem bid label).db
      = (mergeAndSave db sid sd ed rows batch sem bid label).db := by
  set db1 := (mergeAndSave db sid sd ed rows batch sem bid label).db with hdb1
  have hhol : db1.holidays = db.holidays :=
    mergeAndSave_holidays db sid sd ed rows batch sem bid label
  have h2 := mergeAndSave_sessions db1 sid sd ed rows batch sem bid label
  rw [normRows_congr hhol sd ed rows batch sem bid] at h2
  have h1 := mergeAndSave_sessions db sid sd ed rows batch sem bid label
  set ins := normRows db sd ed rows batch sem bid with hins
  set q : SessionRow → Bool :=
    fun s => !(ins.any (fun r => matchesDel batch sem bid r s)) with hq
  have hfq : db1.sessions.filter q = db.sessions.filter q := by
    rw [h1, List.filter_append]
    have e1 : (db.sessions.filter q).filter q = db.sessions.filter q := by
      rw [List.filter_filter]
      exact List.filter_congr (fun a _ => Bool.and_self _)
    have e2 : (ins.map storeRow).filter q = [] := by
      rw [List.filter_eq_nil_iff]
      intro a ha
      obtain ⟨r, hr, rfl⟩ := List.mem_map.mp ha
      obtain ⟨hb1, hb2, hb3, -⟩ := normRows_stamped hr
      have hany : ins.any (fun r' => matchesDel batch sem bid r' (storeRow r)) = true :=
        List.any_eq_true.mpr ⟨r, hr, matchesDel_storeRow_self batch sem bid r hb1 hb2 hb3⟩
      simp [hq, hany]
    rw [e1, e2, List.append_nil]
  have hsess : (mergeAndSave db1 sid sd ed rows batch sem bid label).db.sessions
      = db1.sessions := by
    rw [h2, hfq, ← h1]
  rw [mergeAndSave_db_eq db1 sid sd ed rows batch sem bid label, hsess]

theorem mergeAndSave_pairwise (db : DB) (sid sd ed : Nat) (rows : List SessionRow)
    (batch sem : Nat) (bid : Option Nat) (label : String)
    (h0 : db.sessions.Pairwise (fun a b => key7 a ≠ key7 b))
    (hb : (normRows db sd ed rows batch sem bid).Pairwise (fun a b => key4 a ≠ key4 b)) :
    ((mergeAndSave db sid sd ed rows batch sem bid label).db.sessions).Pairwise
      (fun a b => key7 a ≠ key7 b) := by
  rw [mergeAndSave_sessions, List.pairwise_append]
  refine ⟨h0.filter _, ?_, ?_⟩
  · rw [List.pairwise_map]
    refine hb.imp ?_
    intro r1 r2 hne heq
    apply hne
    simp only [key7, storeRow, Key7.mk.injEq] at heq
    obtain ⟨e1, e2, e3, e4, e5, e6, e7⟩ := heq
    rw [pyLower_idem, pyLower_idem] at e7
    simp only [key4, Key4.mk.injEq]
    exact ⟨e1, e2, e6, e7⟩
  · intro a ha b hbmem
    obtain ⟨r, hr, rfl⟩ := List.mem_map.mp hbmem
    intro heq
    rw [List.mem_filter] at ha
    obtain ⟨hamem, hqa⟩ := ha
    rw [Bool.not_eq_true', List.any_eq_false] at hqa
    have hmd := hqa r hr
    obtain ⟨hb1, hb2, hb3, -⟩ := normRows_stamped hr
    apply hmd
    simp only [key7, storeRow, Key7.mk.injEq] at heq
    obtain ⟨e1, e2, e3, e4, e5, e6, e7⟩ := heq
    rw [pyLower_idem] at e7
    simp only [matchesDel, decide_eq_true_eq]
    exact ⟨e1, e2, e3.trans hb1, e4.trans hb2, e5.trans hb3, e6, e7⟩

theorem applyOps_cons (db : DB) (o : MergeOp) (tl : List MergeOp) :
    applyOps db (o :: tl)
      = applyOps (mergeAndSave db o.sid o.sd o.ed o.rows o.batch o.sem o.bid o.label).db tl :=
  rfl

theorem applyOps_holidays (db : DB) (ops : List MergeOp) :
    (applyOps db ops).holidays = db.holidays := by
  induction ops generalizing db with
  | nil => rfl
  | cons o tl ih =>
    rw [applyOps_cons, ih, mergeAndSave_holidays]

theorem length_filterMap_ite {α β : Type} (c : α → Bool) (f : α → β) (l : List α) :
    (l.filterMap (fun a => if c a then none else some (f a))).length
      = (l.filter (fun a => !(c a))).length := by
  induction l with
  | nil => rfl
  | cons a tl ih =>
    by_cases h : c a <;> simp [h, ih]

theorem clashHit_iff {ay_start d : Nat} {slot : String} {sid : Nat} {ss : SessionRow} :
    clashHit ay_start d slot sid ss = true ↔
      (ss.session_date = d ∧ pyLower ss.slot = pyLower slot ∧
        ss.subject_id ≠ sid ∧ toOrdinal ay_start 6 1 ≤ ss.session_date ∧
        ss.session_date ≤ toOrdinal (ay_start + 1) 5 31) := by
  simp only [clashHit, decide_eq_true_eq]

theorem conflictsInAy_ne_nil (db : DB) (fids : List Nat) (ay d : Nat)
    (slot : String) (sid : Nat) (hwf : FacultyWF db) :
    conflictsInAy db fids ay d slot sid ≠ [] ↔
      ∃ f ∈ fids, ∃ ss ∈ db.sessions,
        ss.subject_id ≠ sid ∧ ss.session_date = d
        ∧ pyLower ss.slot = pyLower slot
        ∧ toOrdinal ay 6 1 ≤ d ∧ d ≤ toOrdinal (ay + 1) 5 31
        ∧ ((ss.subject_id, f) ∈ db.facultyMap
           ∨ (lookupCriteria db ss.subject_id).bind (fun c => c.subject_in_charge_id)
               = some f) := by
  constructor
  · intro hne
    obtain ⟨c, hc⟩ := List.exists_mem_of_ne_nil _ hne
    unfold conflictsInAy at hc
    by_cases hfe : fids.isEmpty
    · rw [if_pos hfe] at hc
      exact absurd hc (List.not_mem_nil c)
    · rw [if_neg hfe] at hc
      dsimp only at hc
      rw [List.mem_dedup, List.mem_append] at hc
      rcases hc with h1 | h2
      · rw [List.mem_flatMap] at h1
        obtain ⟨ss, hss, hin⟩ := h1
        by_cases hh : clashHit ay d slot sid ss = true
        · rw [if_pos hh] at hin
          rw [List.mem_filterMap] at hin
          obtain ⟨m, hm, -⟩ := hin
          rw [List.mem_filter, Bool.and_eq_true, beq_iff_eq] at hm
          obtain ⟨hmMem, hm1, hm2⟩ := hm
          obtain ⟨hd, hslot, hnsub, hw1, hw2⟩ := clashHit_iff.mp hh
          refine ⟨m.2, ?_, ss, hss, hnsub, hd, hslot, by omega, by omega, Or.inl ?_⟩
          · exact List.mem_of_elem_eq_true hm2
          · rw [← hm1]
            exact hmMem
        · rw [if_neg hh] at hin
          exact absurd hin (List.not_mem_nil c)
      · rw [List.mem_flatMap] at h2
        obtain ⟨ss, hss, hin⟩ := h2
        by_cases hh : clashHit ay d slot sid ss = true
        · rw [if_pos hh] at hin
          obtain ⟨hd, hslot, hnsub, hw1, hw2⟩ := clashHit_iff.mp hh
          cases hsic : (lookupCriteria db ss.subject_id).bind
              (fun c => c.subject_in_charge_id) with
          | none =>
            rw [hsic] at hin
            exact absurd hin (List.not_mem_nil c)
          | some f =>
            rw [hsic] at hin
            dsimp only at hin
            by_cases hcont : fids.contains f = true
            · exact ⟨f, List.mem_of_elem_eq_true hcont, ss, hss, hnsub, hd, hslot,
                by omega, by omega, Or.inr hsic⟩
            · rw [if_neg hcont] at hin
              exact absurd hin (List.not_mem_nil c)
        · rw [if_neg hh] at hin
          exact absurd hin (List.not_mem_nil c)
  · rintro ⟨f, hf, ss, hss, hnsub, hd, hslot, hw1, hw2, hassoc⟩
    have hfe : ¬fids.isEmpty = true := by
      cases fids with
      | nil => cases hf
      | cons a l => simp
    have hhit : clashHit ay d slot sid ss = true :=
      clashHit_iff.mpr ⟨hd, hslot, hnsub, by omega, by omega⟩
    unfold conflictsInAy
    rw [if_neg hfe]
    dsimp only
    rcases hassoc with hmap | hsic
    · have hws := hwf.1 (ss.subject_id, f) hmap
      obtain ⟨nm, hnm⟩ := Option.isSome_iff_exists.mp hws
      apply List.ne_nil_of_mem
        (a := Conflict.mk ss.subject_id ss.session_date ss.slot f nm)
      rw [List.mem_dedup, List.mem_append]
      left
      rw [List.mem_flatMap]
      refine ⟨ss, hss, ?_⟩
      rw [if_pos hhit, List.mem_filterMap]
      refine ⟨(ss.subject_id, f), ?_, ?_⟩
      · rw [List.mem_filter, Bool.and_eq_true, beq_iff_eq]
        exact ⟨hmap, rfl, List.elem_eq_true_of_mem hf⟩
      · rw [hnm]
        rfl
    · obtain ⟨cr, hcrit, hsicc⟩ : ∃ cr, lookupCriteria db ss.subject_id = some cr ∧
          cr.subject_in_charge_id = some f := by
        cases hqq : lookupCriteria db ss.subject_id with
        | none =>
          rw [hqq] at hsic
          cases hsic
        | some cr =>
          rw [hqq] at hsic
          exact ⟨cr, rfl, hsic⟩
      obtain ⟨p, hfind, hp2⟩ : ∃ p, db.criteria.find? (fun p => p.1 == ss.subject_id)
          = some p ∧ p.2 = cr := by
        unfold lookupCriteria at hcrit
        cases hfind : db.criteria.find? (fun p => p.1 == ss.subject_id) with
        | none =>
          rw [hfind] at hcrit
          cases hcrit
        | some p =>
          rw [hfind] at hcrit
          exact ⟨p, rfl, by injection hcrit⟩
      have hws := hwf.2 p (List.mem_of_find?_eq_some hfind) f (by rw [hp2]; exact hsicc)
      obtain ⟨nm, hnm⟩ := Option.isSome_iff_exists.mp hws
      apply List.ne_nil_of_mem
        (a := Conflict.mk ss.subject_id ss.session_date ss.slot f nm)
      rw [List.mem_dedup, List.mem_append]
      right
      rw [List.mem_flatMap]
      refine ⟨ss, hss, ?_⟩
      rw [if_pos hhit, hsic]
      dsimp only
      rw [if_pos (List.elem_eq_true_of_mem hf), hnm]
      exact List.mem_singleton.mpr rfl

theorem mem_filterMap_ite {α β : Type} (c : α → Bool) (f : α → β) (l : List α) {b : β}
    (h : b ∈ l.filterMap (fun a => if c a then none else some (f a))) :
    ∃ a ∈ l, c a = false ∧ b = f a := by
  rw [List.mem_filterMap] at h
  obtain ⟨a, ha, hsome⟩ := h
  by_cases hc : c a = true
  · rw [if_pos hc] at hsome
    cases hsome
  · rw [if_neg hc] at hsome
    cases hsome
    exact ⟨a, ha, Bool.eq_false_iff.mpr hc, rfl⟩

theorem cxDB7_wf : FacultyWF cxDB7 := by
  constructor
  · decide
  · intro q hq f hf
    simp only [cxDB7, List.mem_singleton] at hq
    subst hq
    injection hf with hf
    subst hf
    decide

theorem shortfallCheck_spec (db : DB) (sid sd ed : Nat) (ins sess : List SessionRow)
    (batch sem : Nat) (bid : Option Nat) (label : String) (hins : ins ≠ []) :
    (shortfallCheck db sid sd ed ins sess batch sem bid label).2 = false
    ∧ ((shortfallCheck db sid sd ed ins sess batch sem bid label).1 ≠ [] ↔
        (sumLectures sess sid batch sem bid sd ed < (subjectTargets db sid).1
         ∨ sumStudios sess sid batch sem bid sd ed < (subjectTargets db sid).2))
    ∧ (∀ n ∈ (shortfallCheck db sid sd ed ins sess batch sem bid label).1,
        n.needLect = (subjectTargets db sid).1 - sumLectures sess sid batch sem bid sd ed
        ∧ n.needStud = (subjectTargets db sid).2 - sumStudios sess sid batch sem bid sd ed)
    ∧ (lookupCriteria db sid = none →
        (shortfallCheck db sid sd ed ins sess batch sem bid label).1 = []) := by
  unfold shortfallCheck
  set t := subjectTargets db sid with ht
  set curL := sumLectures sess sid batch sem bid sd ed with hcurL
  set curS := sumStudios sess sid batch sem bid sd ed with hcurS
  by_cases h1 : t.1 ≠ 0 ∨ t.2 ≠ 0
  · rw [if_pos h1]
    dsimp only
    by_cases h2 : t.1 - curL ≠ 0 ∨ t.2 - curS ≠ 0
    · rw [if_pos h2]
      cases ins with
      | nil => exact absurd rfl hins
      | cons a l =>
        refine ⟨rfl, ⟨fun _ => by omega, fun _ => by simp⟩, ?_, ?_⟩
        · intro n hn
          rw [List.mem_singleton] at hn
          subst hn
          exact ⟨rfl, rfl⟩
        · intro hnone
          exfalso
          have : t = (0, 0) := by
            rw [ht]
            unfold subjectTargets
            rw [hnone]
          rw [this] at h1
          simp at h1
    · rw [if_neg h2]
      exact ⟨rfl, ⟨fun h => absurd rfl h, fun h => by omega⟩,
        fun n hn => absurd hn (List.not_mem_nil n), fun _ => rfl⟩
  · rw [if_neg h1]
    have ht0 : t.1 = 0 ∧ t.2 = 0 := by
      by_contra hcon
      apply h1
      omega
    exact ⟨rfl, ⟨fun h => absurd rfl h, fun h => by omega⟩,
      fun n hn => absurd hn (List.not_mem_nil n), fun _ => rfl⟩

end Sched

/-- C1: for all start ≤ end, weekday-index set W and holiday set H, the simple
pattern enumerator returns exactly the dates d in [start, end] with weekday in
W and not in H, in ascending order and without duplicates; for start > end or
empty W it returns the empty sequence. -/
theorem C1_simple_pattern_enumeration (start e : Nat) (W H : Finset Nat) :
    (∀ d, d ∈ Sched.generate_simple_pattern start e W H ↔
      (start ≤ d ∧ d ≤ e ∧ Sched.pyWeekday d ∈ W ∧ d ∉ H))
    ∧ List.Sorted (· < ·) (Sched.generate_simple_pattern start e W H)
    ∧ (Sched.generate_simple_pattern start e W H).Nodup
    ∧ (start > e → Sched.generate_simple_pattern start e W H = [])
    ∧ (W = ∅ → Sched.generate_simple_pattern start e W H = []) := by
  have hs := Sched.sorted_generate_simple_pattern start e W H
  refine ⟨fun d => Sched.mem_generate_simple_pattern, hs,
    List.Pairwise.imp (fun h => Nat.ne_of_lt h) hs, fun h => ?_, fun h => ?_⟩
  · unfold Sched.generate_simple_pattern
    rw [if_pos h]
  · rw [List.eq_nil_iff_forall_not_mem]
    intro d hd
    rcases Sched.mem_generate_simple_pattern.mp hd with ⟨-, -, hW, -⟩
    rw [h] at hW
    exact absurd hW (Finset.not_mem_empty _)

/-- C9: in alternating mode, a non-holiday date d of [start, end] is included
exactly when its weekday lies in set A if floor((d - start)/7) is even, and in
set B if that week index is odd. -/
theorem C9_alternating_parity (start e : Nat) (A B H : Finset Nat) (d : Nat)
    (h1 : start ≤ d) (h2 : d ≤ e) (hH : d ∉ H) :
    d ∈ Sched.generate_alternating_pattern start e A B H ↔
      Sched.pyWeekday d ∈ (if (d - start) / 7 % 2 = 0 then A else B) := by
  unfold Sched.generate_alternating_pattern
  rw [if_neg (by omega)]
  simp only [List.mem_filter, Sched.mem_dayRange, decide_eq_true_eq]
  tauto

/-- Witness for C9 at the example given in the spec: start 2024-01-01 (ordinal
738886, a Monday), sets A = {Mon, Thu}, B = {Tue, Fri}; day 8 after the start
is a Tuesday of week 1 and is included because Tue lies in B. -/
theorem C9_alternating_parity_witness :
    738894 ∈ Sched.generate_alternating_pattern 738886 738899
      ({0, 3} : Finset Nat) ({1, 4} : Finset Nat) (∅ : Finset Nat) :=
  (C9_alternating_parity 738886 738899 {0, 3} {1, 4} ∅ 738894
    (by decide) (by decide) (by decide)).mpr (by decide)

/-- C2 (amended): a merge deletes exactly the pre-existing rows that match
some batch row on the deletion key of the implementation and then appends the
batch.  In screens/schedule.py the key has seven columns — subject, topic,
batch year, semester, branch, date and case-insensitive slot — and the batch
is holiday-filtered, stamped and stored with lower-cased slot/kind; in the
Copy (3) variant the key is only (subject of the call, date, case-insensitive
slot) and the stamped batch is stored verbatim.  Neither uses the
four-column (subject, topic, date, slot) key the claim states. -/
theorem C2_deletion_key (db : Sched.DB) (sid sd ed batch sem : Nat)
    (bid bhid : Option Nat) (rows : List Sched.SessionRow) (label : String) :
    (Sched.mergeAndSave db sid sd ed rows batch sem bid label).db.sessions
      = db.sessions.filter (fun s =>
          !((Sched.normRows db sd ed rows batch sem bid).any
            (fun r => Sched.matchesDel batch sem bid r s)))
        ++ (Sched.normRows db sd ed rows batch sem bid).map Sched.storeRow
    ∧ (Sched.mergeAndSave3 db sid sd ed rows batch sem bid bhid label).db.sessions
      = db.sessions.filter (fun s =>
          !((rows.map (Sched.stampRow3 batch sem bid bhid)).any
            (fun r => Sched.matchesDel3 sid r s)))
        ++ rows.map (Sched.stampRow3 batch sem bid bhid) :=
  ⟨Sched.mergeAndSave_sessions db sid sd ed rows batch sem bid label,
   Sched.mergeAndSave3_sessions db sid sd ed rows batch sem bid bhid label⟩

/-- Counterexample to C2 as stated: the stored row cxRowOld (batch 2024)
agrees with the batch row cxRowNew on the full (subject, topic, date, slot)
tuple, yet a schedule.py merge stamped with batch 2025 does not delete it —
the deletion key is not that 4-tuple. -/
theorem C2_counterexample :
    Sched.cxRowOld.subject_id = Sched.cxRowNew.subject_id
    ∧ Sched.cxRowOld.topic_id = Sched.cxRowNew.topic_id
    ∧ Sched.cxRowOld.session_date = Sched.cxRowNew.session_date
    ∧ Sched.pyLower Sched.cxRowOld.slot = Sched.pyLower Sched.cxRowNew.slot
    ∧ Sched.cxRowOld ∈ (Sched.mergeAndSave Sched.cxDB2 1 738880 738890
        [Sched.cxRowNew] 2025 1 none "Pattern generate").db.sessions := by
  refine ⟨rfl, rfl, rfl, rfl, ?_⟩
  decide

/-- C3 (amended): starting from a store whose rows are pairwise distinct on
the seven-column deletion key (subject, topic, batch year, semester, branch,
date, case-insensitive slot), any sequence of session-writing merge
operations whose normalised batches are pairwise distinct on (subject,
topic, date, case-insensitive slot) preserves that distinctness: at most one
session row per seven-column key.  Uniqueness per the bare four-column
(subject, topic, date, slot) tuple does not hold. -/
theorem C3_session_uniqueness (db : Sched.DB) (ops : List Sched.MergeOp)
    (h0 : db.sessions.Pairwise (fun a b => Sched.key7 a ≠ Sched.key7 b))
    (hops : ∀ op ∈ ops,
      (Sched.normRows db op.sd op.ed op.rows op.batch op.sem op.bid).Pairwise
        (fun a b => Sched.key4 a ≠ Sched.key4 b)) :
    ((Sched.applyOps db ops).sessions).Pairwise
      (fun a b => Sched.key7 a ≠ Sched.key7 b) := by
  induction ops generalizing db with
  | nil => exact h0
  | cons o tl ih =>
    rw [Sched.applyOps_cons]
    refine ih _ ?_ ?_
    · exact Sched.mergeAndSave_pairwise db o.sid o.sd o.ed o.rows o.batch o.sem
        o.bid o.label h0 (hops o (List.mem_cons_self o tl))
    · intro op hop
      rw [Sched.normRows_congr
        (Sched.mergeAndSave_holidays db o.sid o.sd o.ed o.rows o.batch o.sem o.bid o.label)
        op.sd op.ed op.rows op.batch op.sem op.bid]
      exact hops op (List.mem_cons_of_mem o hop)

/-- Witness for C3 at a concrete input: one pattern-generation merge into the
empty store leaves rows pairwise distinct on the seven-column key. -/
theorem C3_session_uniqueness_witness :
    ((Sched.applyOps Sched.cxDB0 [Sched.cxOp1]).sessions).Pairwise
      (fun a b => Sched.key7 a ≠ Sched.key7 b) :=
  C3_session_uniqueness Sched.cxDB0 [Sched.cxOp1] (by decide) (by decide)

/-- Counterexample to C3 as stated: generating the same day for batch 2024
and then for batch 2025 leaves two stored rows that agree on (subject,
topic, date, slot), so at most-one-per-4-tuple is violated. -/
theorem C3_counterexample :
    ¬ ((Sched.applyOps Sched.cxDB0 [Sched.cxOp1, Sched.cxOp2]).sessions.Pairwise
        (fun a b => Sched.key4 a ≠ Sched.key4 b)) := by
  decide

/-- C4: running the same simple-pattern generation twice with identical
inputs over the same range leaves the session store exactly as after the
first run; in particular the row counts agree. -/
theorem C4_regeneration_idempotent (db : Sched.DB) (sid : Nat) (topic : Option Nat)
    (degree sd ed weeks : Nat) (picks : Finset Nat) (slot kind : String)
    (batch sem : Nat) (bid : Option Nat) (label : String) :
    (let rows1 := Sched.generateSimpleRows db sid topic degree sd ed weeks picks slot kind
     let r1 := Sched.mergeAndSave db sid sd ed rows1 batch sem bid label
     let rows2 := Sched.generateSimpleRows r1.db sid topic degree sd ed weeks picks slot kind
     let r2 := Sched.mergeAndSave r1.db sid sd ed rows2 batch sem bid label
     r2.db = r1.db ∧ r2.db.sessions.length = r1.db.sessions.length) := by
  dsimp only
  rw [Sched.generateSimpleRows_congr
    (Sched.mergeAndSave_holidays db sid sd ed
      (Sched.generateSimpleRows db sid topic degree sd ed weeks picks slot kind)
      batch sem bid label) sid topic degree sd ed weeks picks slot kind]
  have h := Sched.mergeAndSave_twice db sid sd ed
    (Sched.generateSimpleRows db sid topic degree sd ed weeks picks slot kind)
    batch sem bid label
  exact ⟨h, by rw [h]⟩

/-- C5 (amended): both pattern generators exclude holiday dates from their
output, and merge-and-save drops any input row whose date is a holiday of
the generation window, so regeneration never inserts a session on such a
date: every post-merge row dated on a window holiday was already stored
before the merge.  (A pre-existing session on the holiday date is, however,
not deleted by regenerating — see the counterexample.) -/
theorem C5_holiday_exclusion (start e : Nat) (W A B H : Finset Nat)
    (db : Sched.DB) (sid sd ed batch sem : Nat) (bid : Option Nat)
    (rows : List Sched.SessionRow) (label : String) :
    (∀ d ∈ Sched.generate_simple_pattern start e W H, d ∉ H)
    ∧ (∀ d ∈ Sched.generate_alternating_pattern start e A B H, d ∉ H)
    ∧ (∀ s ∈ (Sched.mergeAndSave db sid sd ed rows batch sem bid label).db.sessions,
        s.session_date ∈ Sched.holidaysBetween db sd ed → s ∈ db.sessions) := by
  refine ⟨?_, ?_, ?_⟩
  · intro d hd
    exact (Sched.mem_generate_simple_pattern.mp hd).2.2.2
  · intro d hd
    unfold Sched.generate_alternating_pattern at hd
    by_cases h : start > e
    · rw [if_pos h] at hd
      exact absurd hd (List.not_mem_nil d)
    · rw [if_neg h] at hd
      rw [List.mem_filter, decide_eq_true_eq] at hd
      exact hd.2.2
  · intro s hs hh
    rw [Sched.mergeAndSave_sessions] at hs
    rcases List.mem_append.mp hs with h1 | h2
    · exact (List.mem_filter.mp h1).1
    · obtain ⟨r, hr, rfl⟩ := List.mem_map.mp h2
      obtain ⟨-, -, -, hnh⟩ := Sched.normRows_stamped hr
      exact absurd hh hnh

/-- Counterexample to C5 as stated: 2024-01-02 (ordinal 738887) is in the
holiday set of cxDB5 and carries a previously generated session; rerunning
the Mon/Tue pattern generation excludes the holiday from its batch, so the
merge deletes nothing on that date and the old session remains stored —
the date is not absent from the stored sessions after regeneration. -/
theorem C5_counterexample :
    738887 ∈ Sched.cxDB5.holidays
    ∧ ((Sched.mergeAndSave Sched.cxDB5 1 738886 738892
        (Sched.generateSimpleRows Sched.cxDB5 1 none 1 738886 738892 1
          ({0, 1} : Finset Nat) "morning" "lecture")
        2024 1 none "Pattern generate").db.sessions.any
          (fun s => s.session_date == 738887)) = true := by
  constructor
  · decide
  · decide

/-- C6 (amended): for a merge-and-save whose batch is nonempty and whose
holiday-filtered batch is still nonempty, a shortfall message is emitted iff
the re-read lecture sum for the subject within the generation window is
below the lecture target or the studio sum is below the studio target; the
message reports max(0, target − actual) for each of lectures and studios,
and a missing subject-criteria row makes the check a silent no-op.  (With an
empty batch the whole check is skipped, so the as-stated `iff` fails.) -/
theorem C6_shortfall_check (db : Sched.DB) (sid sd ed : Nat)
    (rows : List Sched.SessionRow) (batch sem : Nat) (bid : Option Nat)
    (label : String) (hrows : rows ≠ [])
    (hins : Sched.normRows db sd ed rows batch sem bid ≠ []) :
    (let res := Sched.mergeAndSave db sid sd ed rows batch sem bid label
     let t := Sched.subjectTargets db sid
     let curL := Sched.sumLectures res.db.sessions sid batch sem bid sd ed
     let curS := Sched.sumStudios res.db.sessions sid batch sem bid sd ed
     res.crashed = false
     ∧ (res.notifs ≠ [] ↔ (curL < t.1 ∨ curS < t.2))
     ∧ (∀ n ∈ res.notifs, n.needLect = t.1 - curL ∧ n.needStud = t.2 - curS)
     ∧ (Sched.lookupCriteria db sid = none → res.notifs = [])) := by
  have hne : ¬(rows.isEmpty = true) := by
    rw [List.isEmpty_iff]
    exact hrows
  dsimp only
  unfold Sched.mergeAndSave
  rw [if_neg hne]
  dsimp only
  have h := Sched.shortfallCheck_spec db sid sd ed
    (Sched.normRows db sd ed rows batch sem bid)
    (Sched.mergedSessions db sd ed rows batch sem bid) batch sem bid label hins
  exact ⟨h.1, h.2.1, h.2.2.1, fun hc => h.2.2.2 hc⟩

/-- Witness for C6: a merge of one generated lecture row for a subject whose
criteria demand 10 lectures emits a shortfall message. -/
theorem C6_shortfall_check_witness :
    (Sched.mergeAndSave Sched.cxDB6 1 738886 738892 [Sched.cxRowNew]
      2024 1 none "Editor save").notifs ≠ [] := by
  refine ((C6_shortfall_check Sched.cxDB6 1 738886 738892 [Sched.cxRowNew]
    2024 1 none "Editor save" (by decide) (by decide)).2.1).mpr ?_
  decide

/-- Counterexample to C6 as stated: with an empty batch the merge returns
before the shortfall check, so no message is emitted even though the stored
lecture sum (0) is below the target (10) — the claimed `iff` fails. -/
theorem C6_counterexample :
    (Sched.mergeAndSave Sched.cxDB6 1 738886 738892 [] 2024 1 none
        "Pattern generate").notifs = []
    ∧ Sched.sumLectures (Sched.mergeAndSave Sched.cxDB6 1 738886 738892 []
        2024 1 none "Pattern generate").db.sessions 1 2024 1 none 738886 738892
      < (Sched.subjectTargets Sched.cxDB6 1).1 := by
  constructor
  · decide
  · decide

/-- C7: under referential integrity of the faculty joins, the clash query
finds a conflict for a new session (date d, slot) of the subject exactly
when some faculty member associated with the subject (its subject-in-charge
plus all mapped faculty) already has a session of a different subject on the
same date and case-insensitively equal slot inside the June 1 .. May 31
academic-year window; in particular a same-date session whose slot differs
case-insensitively never yields a clash. -/
theorem C7_clash_detection (db : Sched.DB) (sid ay d : Nat) (slot : String)
    (hwf : Sched.FacultyWF db) :
    (Sched.conflictsInAy db (Sched.facultyIds3 db sid) ay d slot sid ≠ [] ↔
      ∃ f ∈ Sched.facultyIds3 db sid, ∃ ss ∈ db.sessions,
        ss.subject_id ≠ sid ∧ ss.session_date = d
        ∧ Sched.pyLower ss.slot = Sched.pyLower slot
        ∧ Sched.toOrdinal ay 6 1 ≤ d ∧ d ≤ Sched.toOrdinal (ay + 1) 5 31
        ∧ ((ss.subject_id, f) ∈ db.facultyMap
           ∨ (Sched.lookupCriteria db ss.subject_id).bind
               (fun c => c.subject_in_charge_id) = some f))
    ∧ ((∀ ss ∈ db.sessions, ss.subject_id ≠ sid → ss.session_date = d →
          Sched.pyLower ss.slot ≠ Sched.pyLower slot) →
        Sched.conflictsInAy db (Sched.facultyIds3 db sid) ay d slot sid = []) := by
  have hiff := Sched.conflictsInAy_ne_nil db (Sched.facultyIds3 db sid) ay d slot sid hwf
  refine ⟨hiff, ?_⟩
  intro hnone
  by_contra hne
  obtain ⟨f, -, ss, hss, hnsub, hd, hslot, -⟩ := hiff.mp hne
  exact absurd hslot (hnone ss hss hnsub hd)

/-- Witness for C7 at the scenario the spec tests: faculty 1 serves subject 2
which already meets on 2025-07-10 morning (ordinal 739442, inside AY 2025),
and faculty 1 is the subject-in-charge of subject 1, so generating subject 1
on that date and slot is detected as a clash. -/
theorem C7_clash_detection_witness :
    Sched.conflictsInAy Sched.cxDB7 (Sched.facultyIds3 Sched.cxDB7 1)
      2025 739442 "morning" 1 ≠ [] :=
  ((C7_clash_detection Sched.cxDB7 1 2025 739442 "morning" Sched.cxDB7_wf).1).mpr
    (by decide)

/-- C8 (amended): in a Copy (3) merge, one clash message is emitted per
newly written row whose date+slot clashes — not one per individual clash,
and possibly several per generation action; each message carries the date
and slot of that row, the deduplicated clash count for them, the academic
year and the recipient list (subject-in-charge, principal, branch head); the
identical messages are surfaced synchronously as warnings to the caller, and
every stamped batch row is stored regardless of clashes. -/
theorem C8_clash_notification (db : Sched.DB) (sid sd ed : Nat)
    (new_rows : List Sched.SessionRow) (batch sem : Nat) (bid bhid : Option Nat)
    (label : String) :
    (let res := Sched.mergeAndSave3 db sid sd ed new_rows batch sem bid bhid label
     let stamped := new_rows.map (Sched.stampRow3 batch sem bid bhid)
     let ay := Sched.ayForSem batch sem
     res.warnings = res.clashes
     ∧ res.clashes.length = (stamped.filter (fun r =>
         !(Sched.conflictsInAy res.db (Sched.facultyIds3 db sid) ay r.session_date
             (Sched.pyLower r.slot) sid).isEmpty)).length
     ∧ (∀ n ∈ res.clashes,
         n.recipients = Sched.clashRecips db sid bhid ∧ n.subject_id = sid
         ∧ n.label = label ∧ n.ayStart = ay
         ∧ n.clashCount = (Sched.conflictsInAy res.db (Sched.facultyIds3 db sid)
             ay n.day n.slot sid).length
         ∧ n.clashCount ≠ 0)
     ∧ (∀ r ∈ stamped, r ∈ res.db.sessions)) := by
  dsimp only
  unfold Sched.mergeAndSave3
  by_cases h : new_rows.isEmpty
  · rw [if_pos h, List.isEmpty_iff.mp h]
    refine ⟨rfl, rfl, fun n hn => absurd hn (List.not_mem_nil n),
      fun r hr => absurd hr (List.not_mem_nil r)⟩
  · rw [if_neg h]
    dsimp only
    refine ⟨rfl, ?_, ?_, ?_⟩
    · exact Sched.length_filterMap_ite _ _ _
    · intro n hn
      obtain ⟨r, hr, hcf, rfl⟩ := Sched.mem_filterMap_ite _ _ _ hn
      refine ⟨rfl, rfl, rfl, rfl, rfl, ?_⟩
      intro hlen
      simp only at hlen hcf
      rw [List.length_eq_zero] at hlen
      rw [hlen] at hcf
      simp at hcf
    · intro r hr
      exact List.mem_append.mpr (Or.inr hr)

/-- Counterexample to C8 as stated: one generation action writing subject 1
on the mornings of 2025-07-10 and 2025-07-11, each clashing with existing
sessions of subject 2 through shared faculty 1, emits two clash messages — not
exactly one per generation action. -/
theorem C8_counterexample :
    ((Sched.mergeAndSave3 Sched.cxDB8 1 739403 739767 Sched.cxRows8
        2025 1 none none "Pattern generate").clashes).length = 2 := by
  decide

/-- C10: merge-and-save with an empty batch is a complete no-op in both
implementations — the store, message lists and crash flag are untouched —
and a simple-pattern generation with an empty weekday selection produces
exactly the empty batch. -/
theorem C10_empty_batch_noop (db : Sched.DB) (sid sd ed batch sem : Nat)
    (bid bhid : Option Nat) (label : String) (topic : Option Nat)
    (degree weeks : Nat) (slot kind : String) :
    Sched.mergeAndSave db sid sd ed [] batch sem bid label
        = { db := db, notifs := [], crashed := false }
    ∧ Sched.mergeAndSave3 db sid sd ed [] batch sem bid bhid label
        = { db := db, shortfalls := [], clashes := [], warnings := [] }
    ∧ Sched.generateSimpleRows db sid topic degree sd ed weeks ∅ slot kind = [] := by
  refine ⟨rfl, rfl, ?_⟩
  unfold Sched.generateSimpleRows
  rw [List.filterMap_eq_nil_iff]
  intro d hd
  have hno : ¬(Sched.pyWeekday d ∈ (∅ : Finset Nat)
      ∧ d ∉ Sched.holidaysBetween db sd ed) := by
    rintro ⟨hW, -⟩
    exact absurd hW (Finset.not_mem_empty _)
  rw [if_neg hno]
